import Mathlib

/-!
Verification of the sitescan-backend ingestion / scoring / alerting core.

The Python source is shallowly embedded: pure functions (`classify_project`,
`score_match`, `score_with_value_boost`) become Lean functions over a small
regex engine that mirrors Python `re.findall` (case-insensitive matching is
modelled by lower-casing both text and patterns); the stateful services
(`upsert_projects`, `run_source_scan`, `run_full_scan`, `process_alerts`)
become explicit state-passing functions over a `Store` of records, with
database exceptions modelled by `Except` and `datetime.utcnow()` modelled as
a natural number of microseconds since an epoch (UTC timeline).
-/

namespace SiteScan

/-! ## A small regex engine (the subset used by `app/services/scoring.py`)

The source's patterns use only: literal characters, `\s*` and `[\s-]*`
(star over a character class), `?` on a single character, alternation, and
grouping.  Python `re.findall` semantics are modelled faithfully for that
subset: the text is scanned left to right; at each position the pattern is
tried with leftmost-alternative-first, greedy backtracking; a successful
match is counted and scanning resumes after it (after one character for an
empty match). -/

inductive RE where
  | eps : RE
  | lit : Char → RE
  | cls : List Char → RE
  | seq : RE → RE → RE
  | alt : RE → RE → RE
  | opt : RE → RE
  | starCls : List Char → RE
deriving Repr

/-- All ways the pattern can match a prefix of `s`, as the list of remaining
suffixes, in Python backtracking priority order (leftmost alternative first,
greedy `?` and `*`). -/
def RE.matches : RE → List Char → List (List Char)
  | .eps, s => [s]
  | .lit _, [] => []
  | .lit c, x :: xs => if x = c then [xs] else []
  | .cls _, [] => []
  | .cls cs, x :: xs => if x ∈ cs then [xs] else []
  | .seq a b, s => (a.matches s).flatMap b.matches
  | .alt a b, s => a.matches s ++ b.matches s
  | .opt a, s => a.matches s ++ [s]
  | .starCls cs, s =>
      let k := (s.takeWhile (· ∈ cs)).length
      (List.range (k + 1)).map (fun i => s.drop (k - i))

/-- One scanning step of `re.findall`: fuel is an upper bound on the number of
steps (each step either consumes the matched text or advances one position). -/
def countAux (r : RE) : Nat → List Char → Nat
  | 0, _ => 0
  | _ + 1, [] => match (r.matches []).head? with
    | some _ => 1
    | none => 0
  | fuel + 1, x :: rest =>
    match (r.matches (x :: rest)).head? with
    | none => countAux r fuel rest
    | some s' =>
        if s'.length < (x :: rest).length then 1 + countAux r fuel s'
        else 1 + countAux r fuel rest

/-- `len(pattern.findall(text))` for a text given as a character list. -/
def countMatches (r : RE) (s : List Char) : Nat := countAux r (s.length + 1) s

/-- Case-insensitive matching is modelled by lower-casing the text (the
patterns below are written in lower case). -/
def lowerStr (s : String) : List Char := s.data.map Char.toLower

/-- Python `\s` character class. -/
def wsChars : List Char := [' ', '\t', '\n', '\x0d', '\x0c', '\x0b']

def reStr (s : String) : RE := s.data.foldr (fun c r => RE.seq (RE.lit c) r) RE.eps

def reAlts : List RE → RE
  | [] => RE.cls []
  | [r] => r
  | r :: rs => RE.alt r (reAlts rs)

def reCat (rs : List RE) : RE := rs.foldr RE.seq RE.eps

/-- `\s*` -/
def ws0 : RE := RE.starCls wsChars

/-- `[\s-]*` -/
def wsDash0 : RE := RE.starCls (wsChars ++ ['-'])

/-! ## Category classification (`CATEGORY_PATTERNS`, `classify_project`) -/

def patHistoric : RE := reAlts [reStr "historic", reStr "heritage", reStr "preservation",
  reStr "landmark", reStr "antebellum", reStr "restoration",
  reCat [reStr "national", ws0, reStr "register"],
  reCat [reStr "adaptive", ws0, reStr "reuse"],
  reStr "period", reStr "century", reStr "colonial", reStr "victorian",
  reCat [reStr "greek", ws0, reStr "revival"],
  reCat [reStr "art", ws0, reStr "deco"]]

def patMasonry : RE := reAlts [reStr "masonry", reStr "mortar", reStr "brick", reStr "stone",
  reCat [reStr "concrete", ws0, reStr "block"],
  reStr "stucco", reStr "repoint", reStr "tuckpoint", reStr "grout", reStr "cmu",
  reStr "veneer", reStr "parapet", reStr "chimney",
  reCat [reStr "lime", ws0, reStr "mortar"]]

def patStructural : RE := reAlts [reStr "structur", reStr "foundation", reStr "reinforc",
  reCat [reStr "load", wsDash0, reStr "bear"],
  reCat [reStr "steel", ws0, reStr "beam"],
  reStr "shoring", reStr "underpin", reStr "seismic",
  reCat [reStr "retaining", ws0, reStr "wall"],
  reStr "pile", reStr "micropile", reStr "helical", reStr "shotcrete",
  reCat [reStr "carbon", ws0, reStr "fiber"]]

def patGovernment : RE := reAlts [reStr "government", reStr "municipal", reStr "federal",
  reCat [reStr "state", ws0, reStr "of"],
  reCat [reStr "county", ws0, reStr "of"],
  reCat [reStr "city", ws0, reStr "of"],
  reCat [reStr "public", ws0, reStr "works"],
  reCat [reStr "department", ws0, reStr "of"],
  reCat [RE.lit 'u', RE.opt (RE.lit '.'), RE.lit 's', RE.opt (RE.lit '.'), ws0, reStr "army"],
  reCat [reStr "corps", ws0, reStr "of", ws0, reStr "engineer"],
  reStr "gsa",
  reCat [reStr "va", ws0, reStr "hospital"],
  reStr "courthouse",
  reCat [reStr "post", ws0, reStr "office"]]

def patCommercial : RE := reAlts [reStr "commercial", reStr "office", reStr "retail",
  reCat [reStr "mixed", wsDash0, reStr "use"],
  reStr "warehouse", reStr "industrial", reStr "hotel", reStr "hospital",
  reStr "school", reStr "university", reStr "church",
  reCat [reStr "tenant", ws0, reStr "improvement"]]

def CATEGORY_PATTERNS : List (String × RE) :=
  [("historic-restoration", patHistoric), ("masonry", patMasonry),
   ("structural", patStructural), ("government", patGovernment),
   ("commercial", patCommercial)]

/-- Match count of each category group on `f"{title} {description}"`. -/
def categoryScores (title description : String) : List (String × Nat) :=
  let text := lowerStr (title ++ " " ++ description)
  CATEGORY_PATTERNS.map (fun cp => (cp.1, countMatches cp.2 text))

/-- The tail of `classify_project`: `"residential"` when the score dict is
empty or its max value is 0, else `max(scores, key=scores.get)` (Python's
`max` keeps the first key whose value is maximal, in insertion order). -/
def pickCategory (scores : List (String × Nat)) : String :=
  if (scores.map Prod.snd).foldl Nat.max 0 = 0 then "residential"
  else
    match scores with
    | [] => "residential"
    | h :: t => (t.foldl (fun best x => if best.2 < x.2 then x else best) h).1

def classify_project (title : String) (description : String) : String :=
  pickCategory (categoryScores title description)

/-! ## Match scoring (`SCORE_GROUPS`, `NEGATIVE_PATTERNS`, `score_match`,
`score_with_value_boost`) -/

def patW18 : RE := reAlts [
  reCat [reStr "historic", ws0,
    reAlts [reStr "masonry", reStr "brick", reStr "restoration", reStr "facade"]],
  reCat [reStr "lime", wsDash0, reStr "mortar"],
  reCat [reStr "heritage", ws0, reStr "mortar"],
  reStr "repoint", reStr "tuckpoint", reStr "parexlanko", reStr "sikamur",
  reCat [reStr "european", ws0, reStr "mortar"],
  reCat [reStr "specialty", ws0, reStr "mortar"]]

def patW14 : RE := reAlts [reStr "masonry",
  reCat [reStr "brick", ws0, reAlts [reStr "repair", reStr "replac", reStr "restor"]],
  reCat [reStr "stone", ws0, reAlts [reStr "repair", reStr "restor"]],
  reCat [reStr "stucco", ws0, reAlts [reStr "repair", reStr "remov", reStr "replac"]],
  reCat [reStr "mortar", ws0, reStr "joint"],
  reCat [reStr "facade", ws0, reStr "restor"]]

def patW12 : RE := reAlts [
  reCat [reStr "structur", ws0, reAlts [reStr "reinforc", reStr "repair", reStr "modif"]],
  reCat [reStr "load", wsDash0, reStr "bear"],
  reCat [reStr "foundation", ws0, reAlts [reStr "repair", reStr "reinforc", reStr "underpin"]],
  reCat [reStr "steel", ws0, reStr "beam"],
  reStr "shoring",
  reCat [reStr "seismic", ws0, reStr "brac"]]

def patW10 : RE := reAlts [reStr "historic", reStr "preservation", reStr "restoration",
  reStr "heritage", reStr "landmark",
  reCat [reStr "national", ws0, reStr "register"],
  reCat [reStr "adaptive", ws0, reStr "reuse"]]

def patW8 : RE := reAlts [reStr "charleston",
  reCat [reStr "mt", RE.opt (RE.lit '.'), ws0, reStr "pleasant"],
  reCat [reStr "james", ws0, reStr "island"],
  reStr "summerville",
  reCat [reStr "north", ws0, reStr "charleston"],
  reCat [reStr "west", ws0, reStr "ashley"],
  reCat [reStr "john", RE.opt (RE.lit 's'), ws0, reStr "island"],
  reCat [reStr "folly", ws0, reStr "beach"],
  reStr "sullivan",
  reCat [reStr "daniel", ws0, reStr "island"],
  reCat [reStr "goose", ws0, reStr "creek"]]

def patW6 : RE := reAlts [reStr "concrete", reStr "block",
  reCat [reStr "retaining", ws0, reStr "wall"],
  reStr "waterproof", reStr "envelope",
  reCat [reStr "exterior", ws0, reStr "repair"],
  reStr "caulk", reStr "sealant", reStr "flashing"]

def patW4 : RE := reAlts [reStr "hurricane",
  reCat [reStr "wind", ws0, reStr "uplift"],
  reStr "coastal", reStr "flood", reStr "moisture",
  reCat [reStr "bar", ws0, reStr "review"],
  reCat [reStr "board", ws0, reStr "of", ws0, reStr "architectural"],
  reCat [reStr "building", ws0, reStr "code"],
  reStr "ibc", reStr "fema"]

def patW2 : RE := reAlts [reStr "repair", reStr "rehabilitat", reStr "renovat",
  reStr "restor", reStr "abatement", reStr "demolition",
  reStr "construction", reStr "building", reStr "renovation"]

def SCORE_GROUPS : List (Int × RE) :=
  [(18, patW18), (14, patW14), (12, patW12), (10, patW10),
   (8, patW8), (6, patW6), (4, patW4), (2, patW2)]

/-- `NEGATIVE_PATTERNS` (the source writes `IT\s*service` in upper case; the
match is case-insensitive, so the lower-cased pattern is equivalent). -/
def patNegative : RE := reAlts [reStr "software",
  reCat [reStr "it", ws0, reStr "service"],
  reStr "janitorial", reStr "landscap", reStr "paving", reStr "asphalt",
  reCat [reStr "electrical", ws0, reStr "only"],
  reCat [reStr "plumbing", ws0, reStr "only"],
  reCat [reStr "hvac", ws0, reStr "only"],
  reCat [reStr "roofing", ws0, reStr "only"],
  reCat [reStr "painting", ws0, reStr "only"],
  reStr "carpet",
  reCat [reStr "flooring", ws0, reStr "only"]]

/-- `kw in user_keywords.split()` with `kw.strip()` truthy and
`re.search(re.escape(kw), text, re.IGNORECASE)`: a case-insensitive
substring check.  `needle` and `hay` are already lower-cased char lists. -/
def isPrefixList : List Char → List Char → Bool
  | [], _ => true
  | _ :: _, [] => false
  | a :: as, b :: bs => a = b && isPrefixList as bs

def containsSub (needle : List Char) : List Char → Bool
  | [] => needle.isEmpty
  | c :: t => isPrefixList needle (c :: t) || containsSub needle t

/-- `score_match(title, description, user_keywords)`: baseline 35, the eight
weighted groups with diminishing returns, +3 per found user keyword, -10 per
negative match, clamped to `[1, 99]` by `max(1, min(score, 99))`. -/
def score_match (title : String) (description : String)
    (user_keywords : Option String) : Int :=
  let text := lowerStr (title ++ " " ++ description)
  let score : Int := 35
  let score := SCORE_GROUPS.foldl (fun sc wp =>
    let m := countMatches wp.2 text
    if m ≠ 0 then sc + wp.1 + ((min (m - 1) 3 : Nat) : Int) * (wp.1 / 4) else sc) score
  let score := match user_keywords with
    | none => score
    | some kws => (kws.split Char.isWhitespace).foldl (fun sc kw =>
        if kw ≠ "" && containsSub (lowerStr kw) text then sc + 3 else sc) score
  let score := score - (countMatches patNegative text : Int) * 10
  max 1 (min score 99)

/-- `score_with_value_boost`: Python `if not value` is true for both a missing
value and a literal `0`. -/
def score_with_value_boost (base_score : Int) (value : Option Int) : Int :=
  match value with
  | none => base_score
  | some v =>
    if v = 0 then base_score
    else if 500000 ≤ v then min (base_score + 4) 99
    else if 100000 ≤ v then min (base_score + 2) 99
    else base_score

/-! ## Data model

Timestamps (`datetime.utcnow()`) are modelled as microseconds since an epoch
on the UTC timeline; `timedelta` arithmetic and comparisons carry over
directly.  Fields of `projects` rows that no modelled operation ever reads
(`address`, `latitude`, `longitude`, `posted_date`, `solicitation_number`,
`naics_code`, `permit_number`, `contractor`, `raw_data`) are omitted as
opaque payload; `AlertHistory.sent_at` and surrogate row ids of
`alert_history`/`scan_logs` are likewise never read and are omitted. -/

/-- A `projects` row (`StoredRecord`).  `id` is the autoincrement primary
key; `(source_id, external_id)` is the natural key under the unique
constraint `uq_source_external`. -/
structure Project where
  id : Nat
  source_id : String
  external_id : String
  title : String
  description : String
  location : String
  value : Option Int
  category : String
  match_score : Int
  status : String
  deadline : Option Nat
  agency : String
  source_url : String
  first_seen : Nat
  last_seen : Nat
  is_active : Bool
deriving Repr, DecidableEq

/-- A connector output dict (`CandidateRecord`).  Connectors always set the
natural key (the upsert reads `proj["source_id"]` unconditionally); every
other field is optional, `none` modelling an absent dict key so that
`Option.getD` mirrors `dict.get(key, default)`. -/
structure Candidate where
  source_id : String
  external_id : String
  title : Option String := none
  description : Option String := none
  location : Option String := none
  value : Option Int := none
  category : Option String := none
  match_score : Option Int := none
  status : Option String := none
  deadline : Option Nat := none
  agency : Option String := none
  source_url : Option String := none
deriving Repr, DecidableEq

/-- A `users` row, restricted to the fields the modelled services read. -/
structure User where
  id : Nat
  email : String
  full_name : String
  phone : String
  email_alerts : Bool
  sms_alerts : Bool
  min_match_score : Int
  criteria_min_value : Option Int
  criteria_categories : List String
  criteria_statuses : List String
  criteria_sources : List String
deriving Repr, DecidableEq

/-- A `scan_logs` row (`ScanRun`). -/
structure ScanLog where
  source_id : String
  started_at : Nat
  finished_at : Option Nat
  status : String
  projects_found : Nat
  projects_new : Nat
  error_message : String
deriving Repr, DecidableEq

/-- An `alert_history` row (`AlertReceipt`): its existence means this user
was already notified about this project on this channel. -/
structure AlertHistory where
  user_id : Nat
  project_id : Nat
  alert_type : String
deriving Repr, DecidableEq

/-- The `projects` table plus the autoincrement counter for new row ids. -/
structure Store where
  records : List Project
  nextId : Nat
deriving Repr, DecidableEq

def keyOf (p : Project) : String × String := (p.source_id, p.external_id)

/-! ## Profile scorer (`score_against_profile`)

The routers and `app/services/__init__.py` import `score_against_profile`
from `app.services.scoring`, but no definition of it exists anywhere in the
source tree. -/

/-- Modelled from the spec: `score_against_profile(record, profile)` is
missing from `src/app/services/scoring.py` (only its import sites exist).
Following §4.3: each configured criterion (minimum value, category set,
status set, source set) is one equally-weighted unit, an empty criterion is
not configured, a configured criterion is met when the record satisfies it
(`value ≥ threshold`, `category ∈ set`, `status ∈ set`, `source ∈ set`),
the score is `round(unitsMet / unitsConfigured * 100)`, and zero configured
criteria give the fixed neutral value 50.  Rounding is half-up; with 1–4
units no half values occur, so this agrees with Python `round`. -/
def profileUnits (p : Project) (u : User) : List Bool :=
  (match u.criteria_min_value with
   | none => []
   | some t => [match p.value with | some v => decide (t ≤ v) | none => false]) ++
  (if u.criteria_categories = [] then [] else [decide (p.category ∈ u.criteria_categories)]) ++
  (if u.criteria_statuses = [] then [] else [decide (p.status ∈ u.criteria_statuses)]) ++
  (if u.criteria_sources = [] then [] else [decide (p.source_id ∈ u.criteria_sources)])

/-- `round(met / configured * 100)` as half-up rounding on naturals. -/
def roundPct (met configured : Nat) : Nat := (200 * met + configured) / (2 * configured)

def score_against_profile (p : Project) (u : User) : Nat :=
  if (profileUnits p u).length = 0 then 50
  else roundPct ((profileUnits p u).filter id).length (profileUnits p u).length

/-! ## Dedup / upsert engine (`upsert_projects`)

The loop runs inside `with session.no_autoflush:` — the existence `SELECT`
sees committed/flushed rows (and, through the identity map, in-place updates
of already-persisted rows) but never the pending inserts of the same batch.
All pending inserts hit the database at the single `session.flush()`, where
the unique constraint `uq_source_external` rejects duplicate natural keys
with an `IntegrityError`.  The per-record `datetime.utcnow()` calls of one
batch are modelled as a single `now`. -/

def findProj (recs : List Project) (sid eid : String) : Option Project :=
  recs.find? (fun p => p.source_id = sid ∧ p.external_id = eid)

/-- The update branch: mutable fields from the candidate dict
(`dict.get(key, current)` keeps the current value when the key is absent),
`last_seen = now`, `is_active = True`; `deadline` only when truthy. -/
def applyUpdate (now : Nat) (c : Candidate) (p : Project) : Project :=
  { p with
    last_seen := now,
    title := c.title.getD p.title,
    description := c.description.getD p.description,
    status := c.status.getD p.status,
    match_score := c.match_score.getD p.match_score,
    value := match c.value with | some v => some v | none => p.value,
    is_active := true,
    deadline := match c.deadline with | some d => some d | none => p.deadline }

/-- Mutating the found ORM object in place: in the list model, the (unique)
record with the candidate's natural key is replaced. -/
def updateByKey (now : Nat) (c : Candidate) (recs : List Project) : List Project :=
  recs.map (fun p =>
    if p.source_id = c.source_id ∧ p.external_id = c.external_id then applyUpdate now c p
    else p)

/-- The insert branch: defaults mirror each `proj.get(key, default)`. -/
def newProject (pid : Nat) (now : Nat) (c : Candidate) : Project :=
  { id := pid, source_id := c.source_id, external_id := c.external_id,
    title := c.title.getD "", description := c.description.getD "",
    location := c.location.getD "", value := c.value,
    category := c.category.getD "residential", match_score := c.match_score.getD 50,
    status := c.status.getD "Open", deadline := c.deadline,
    agency := c.agency.getD "", source_url := c.source_url.getD "",
    first_seen := now, last_seen := now, is_active := true }

/-- The per-candidate loop: `recs` is the session's view of persisted rows
(updates visible through the identity map), `pending` the not-yet-flushed
inserts which the existence `SELECT` cannot see. -/
def upsertLoop (now : Nat) :
    List Candidate → List Project → List Project → Nat → Nat →
    List Project × List Project × Nat × Nat
  | [], recs, pending, nid, n => (recs, pending, nid, n)
  | c :: rest, recs, pending, nid, n =>
    match findProj recs c.source_id c.external_id with
    | some _ => upsertLoop now rest (updateByKey now c recs) pending nid n
    | none => upsertLoop now rest recs (pending ++ [newProject nid now c]) (nid + 1) (n + 1)

/-- `upsert_projects(session, projects) -> (total, new_count)`; the final
`session.flush()` raises `IntegrityError` when the flushed rows violate the
unique natural-key constraint. -/
def upsert_projects (now : Nat) (st : Store) (projs : List Candidate) :
    Except String (Store × Nat × Nat) :=
  let r := upsertLoop now projs st.records [] st.nextId 0
  if ((r.1 ++ r.2.1).map keyOf).Nodup then
    Except.ok ({ records := r.1 ++ r.2.1, nextId := r.2.2.1 }, projs.length, r.2.2.2)
  else Except.error "IntegrityError: uq_source_external"

/-! ## Scan orchestrator (`run_source_scan`, `run_full_scan`)

Connectors are external network collaborators: an environment
`fetch : source id → Except error (candidate batch)` stands for the four
scanner coroutines, an exception being `Except.error`.  The several
`datetime.utcnow()` calls of one run are modelled as one `now`. -/

/-- `utcnow().replace(hour=0, minute=0, second=0, microsecond=0)` on the
microsecond timeline (used by the SAM.gov cache check). -/
def dayStart (now : Nat) : Nat := 86400000000 * (now / 86400000000)

/-- `utcnow().replace(hour=0, minute=0, second=0)` — the liveness cutoff in
`run_full_scan`.  Note the `microsecond` component is NOT zeroed there, so
the current microsecond remainder survives in the cutoff. -/
def hmsCutoff (now : Nat) : Nat := 86400000000 * (now / 86400000000) + now % 1000000

def scannerIds : List String :=
  ["sam-gov", "charleston-permits", "scbo", "charleston-city-bids"]

/-- The dict rebuilt from a cached SAM.gov row (keys absent from that dict
stay `none`). -/
def projToCandidate (p : Project) : Candidate :=
  { source_id := "sam-gov", external_id := p.external_id, title := some p.title,
    description := some p.description, location := some p.location, value := p.value,
    category := some p.category, match_score := some p.match_score,
    status := some p.status, deadline := p.deadline, agency := some p.agency,
    source_url := some p.source_url }

/-- The per-source dispatch inside `run_source_scan`: for `sam-gov`, if any
row of that source was already seen today, replay the stored active rows
instead of calling the connector; unknown ids leave `projects = []`. -/
def getProjects (fetch : String → Except String (List Candidate)) (now : Nat)
    (st : Store) (source_id : String) : Except String (List Candidate) :=
  if source_id = "sam-gov" then
    if st.records.any (fun p => p.source_id = "sam-gov" && dayStart now ≤ p.last_seen) then
      Except.ok ((st.records.filter
        (fun p => p.source_id = "sam-gov" && p.is_active)).map projToCandidate)
    else fetch "sam-gov"
  else if source_id = "charleston-permits" then fetch source_id
  else if source_id = "scbo" then fetch source_id
  else if source_id = "charleston-city-bids" then fetch source_id
  else Except.ok []

/-- `run_source_scan`: the ScanLog is persisted in the outer transaction;
the connector call plus upsert run inside a savepoint, so any exception
rolls the store back to the state at the start of this source and is
recorded as `status = "error"` with `str(e)[:500]`. -/
def run_source_scan (fetch : String → Except String (List Candidate)) (now : Nat)
    (st : Store) (source_id : String) : Store × ScanLog :=
  let log0 : ScanLog := { source_id := source_id, started_at := now, finished_at := none,
                          status := "running", projects_found := 0, projects_new := 0,
                          error_message := "" }
  match getProjects fetch now st source_id with
  | Except.error e =>
      (st, { log0 with finished_at := some now, status := "error", error_message := e.take 500 })
  | Except.ok projects =>
    match upsert_projects now st projects with
    | Except.error e =>
        (st, { log0 with finished_at := some now, status := "error", error_message := e.take 500 })
    | Except.ok (st', total, newCount) =>
        (st',
         { log0 with
           finished_at := some now, status := "success",
           projects_found := total, projects_new := newCount })

/-- The liveness reconciliation `UPDATE`: every active row with
`last_seen < utcnow().replace(hour=0, minute=0, second=0)` becomes
inactive. -/
def markInactive (now : Nat) (recs : List Project) : List Project :=
  recs.map (fun p =>
    if p.is_active && p.last_seen < hmsCutoff now then { p with is_active := false } else p)

/-- `run_full_scan(sources)`: each requested source that is a registered
scanner is scanned (failures isolated per source), then liveness is
reconciled over the whole store and the run commits. -/
def run_full_scan (fetch : String → Except String (List Candidate)) (now : Nat)
    (sources : Option (List String)) (st : Store) : Store × List ScanLog :=
  let source_ids := sources.getD scannerIds
  let r := source_ids.foldl (fun (acc : Store × List ScanLog) sid =>
    if sid ∈ scannerIds then
      let s := run_source_scan fetch now acc.1 sid
      (s.1, acc.2 ++ [s.2])
    else acc) (st, [])
  ({ r.1 with records := markInactive now r.1.records }, r.2)

/-! ## Alert engine (`process_alerts` and the message builders)

The delivery collaborators (`send_email_alert`, `send_sms_alert`) catch
their own exceptions and return a success boolean; they are modelled as
`deliver : channel → recipient → payload → Bool` (the email's subject line,
a function of the batch size only, is elided from the payload).  Decimal
formatting of `_format_currency` is approximated by integer division; no
claim inspects the digits. -/

def _format_currency (value : Option Int) : String :=
  match value with
  | none => "N/A"
  | some v =>
    if v = 0 then "N/A"
    else if 1000000 ≤ v then
      "$" ++ toString (v / 1000000) ++ "." ++ toString (v % 1000000 * 10 / 1000000) ++ "M"
    else if 1000 ≤ v then "$" ++ toString (v / 1000) ++ "K"
    else "$" ++ toString v

/-- One `<tr>` of the alert email (HTML boilerplate condensed; the
record-dependent content is preserved). -/
def emailRow (p : Project) : String :=
  let status_color := if p.status = "Open" then "#34d399" else "#fbbf24"
  "<tr><td>" ++ p.title ++ " 📍 " ++ p.location ++
    (if p.agency ≠ "" then " 🏢 " ++ p.agency else "") ++
  "</td><td>" ++ toString p.match_score ++ "%</td><td>" ++ _format_currency p.value ++
  "</td><td><span style=color: " ++ status_color ++ ">" ++ p.status ++
  "</span></td><td><a href=" ++ p.source_url ++ ">View →</a></td></tr>"

/-- `_build_email_html(projects, user_name)`: at most the first 10 projects
get a row; the header shows the full batch size; `user_name` is accepted but
(as in the source) never interpolated. -/
def _build_email_html (projects : List Project) (user_name : String) : String :=
  let rows := String.join ((projects.take 10).map emailRow)
  let _ := user_name
  "🔍 SiteScan Alert " ++ toString projects.length ++ " new high-match opportunit" ++
    (if projects.length = 1 then "y" else "ies") ++ " found" ++
  "<table><thead><tr><th>Project</th><th>Match</th><th>Value</th><th>Status</th>" ++
  "<th>Link</th></tr></thead><tbody>" ++ rows ++ "</tbody></table>" ++
  "SiteScan scans SAM.gov, Charleston permits, SCBO, and local bid portals every 6 hours."

/-- `_build_sms_body(projects)`: at most the first 3 projects are named. -/
def _build_sms_body (projects : List Project) : String :=
  let lines := ["SiteScan: " ++ toString projects.length ++ " new opportunities"] ++
    (projects.take 3).map (fun p =>
      "• " ++ p.title.take 60 ++ " (" ++ toString p.match_score ++ "% match, " ++
        _format_currency p.value ++ ")") ++
    (if 3 < projects.length then
      ["+ " ++ toString (projects.length - 3) ++ " more — check SiteScan"] else [])
  String.intercalate "\n" lines

/-- Stable insertion into a descending-by-`match_score` list. -/
def insertDesc (p : Project) : List Project → List Project
  | [] => [p]
  | q :: t => if q.match_score ≤ p.match_score then p :: q :: t else q :: insertDesc p t

/-- `ORDER BY match_score DESC` (stable). -/
def sortScoreDesc : List Project → List Project
  | [] => []
  | p :: t => insertDesc p (sortScoreDesc t)

/-- The per-user candidate query: active projects first seen after
`utcnow() - timedelta(hours=scan_cron_hours + 1)` with a score meeting the
user's threshold, highest score first. -/
def newProjects (now cron : Nat) (st : Store) (u : User) : List Project :=
  let cutoff := now - (cron + 1) * 3600000000
  sortScoreDesc (st.records.filter (fun p =>
    cutoff ≤ p.first_seen && p.is_active && u.min_match_score ≤ p.match_score))

/-- Project ids with an existing receipt for this user, on any channel. -/
def alreadyIds (hist : List AlertHistory) (uid : Nat) : List Nat :=
  (hist.filter (fun r => r.user_id = uid)).map (fun r => r.project_id)

/-- The batch that survives the already-alerted filter for one user. -/
def toAlert (now cron : Nat) (st : Store) (hist : List AlertHistory) (u : User) :
    List Project :=
  (newProjects now cron st u).filter (fun p => p.id ∉ alreadyIds hist u.id)

/-- One receipt per record of the surviving batch, on the email channel. -/
def emailReceipts (u : User) (ps : List Project) : List AlertHistory :=
  ps.map (fun p => { user_id := u.id, project_id := p.id, alert_type := "email" })

/-- One receipt per record of the surviving batch, on the SMS channel. -/
def smsReceipts (u : User) (ps : List Project) : List AlertHistory :=
  ps.map (fun p => { user_id := u.id, project_id := p.id, alert_type := "sms" })

/-- The email payload handed to the delivery collaborator
(`user.full_name or user.email` as display name). -/
def emailPayload (u : User) (ps : List Project) : String :=
  _build_email_html ps (if u.full_name ≠ "" then u.full_name else u.email)

def alertUser (deliver : String → String → String → Bool) (now cron : Nat) (st : Store)
    (hist : List AlertHistory) (u : User) : List AlertHistory :=
  if (newProjects now cron st u).isEmpty then hist
  else
    let to_alert := toAlert now cron st hist u
    if to_alert.isEmpty then hist
    else
      let hist1 :=
        if u.email_alerts ∧ u.email ≠ "" then
          if deliver "email" u.email (emailPayload u to_alert) then
            hist ++ emailReceipts u to_alert
          else hist
        else hist
      if u.sms_alerts ∧ u.phone ≠ "" then
        if deliver "sms" u.phone (_build_sms_body to_alert) then
          hist1 ++ smsReceipts u to_alert
        else hist1
      else hist1

/-- A user for whom a later alert pass can add nothing: either every
candidate record already has a receipt, or no enabled channel has contact
information. -/
def userSettled (now cron : Nat) (st : Store) (hist : List AlertHistory) (u : User) :
    Prop :=
  (∀ p ∈ newProjects now cron st u, p.id ∈ alreadyIds hist u.id) ∨
  ((u.email_alerts = false ∨ u.email = "") ∧ (u.sms_alerts = false ∨ u.phone = ""))

/-- `process_alerts()`: every user with a channel enabled is processed in
turn against the receipts accumulated so far (the session's autoflush makes
earlier pending receipts visible to later queries). -/
def process_alerts (deliver : String → String → String → Bool) (now cron : Nat)
    (users : List User) (st : Store) (hist : List AlertHistory) : List AlertHistory :=
  let enabled := users.filter (fun u => u.email_alerts || u.sms_alerts)
  if enabled.isEmpty then hist
  else enabled.foldl (alertUser deliver now cron st) hist

/-! ## Concrete fixtures used by counterexamples and witnesses -/

/-- An active record last seen exactly at the start of day 1 (UTC). -/
def fixtureOldProject : Project :=
  { id := 0, source_id := "charleston-permits", external_id := "e", title := "t",
    description := "", location := "", value := none, category := "residential",
    match_score := 50, status := "Open", deadline := none, agency := "",
    source_url := "", first_seen := 86400000000, last_seen := 86400000000,
    is_active := true }

/-- A high-scoring record first seen shortly before the alert pass. -/
def fixtureHighProject : Project :=
  { fixtureOldProject with
    id := 7, match_score := 90,
    first_seen := 90000000000, last_seen := 90000000000 }

/-- A subscriber with both channels enabled. -/
def fixtureUser : User :=
  { id := 1, email := "a@b", full_name := "", phone := "555", email_alerts := true,
    sms_alerts := true, min_match_score := 75, criteria_min_value := none,
    criteria_categories := [], criteria_statuses := [], criteria_sources := [] }

/-- A delivery collaborator where every SMS succeeds and every email fails. -/
def deliverSmsOnly : String → String → String → Bool := fun channel _ _ => channel = "sms"

/-- A delivery collaborator where every delivery succeeds. -/
def deliverAll : String → String → String → Bool := fun _ _ _ => true

/-- A candidate with only its natural key set. -/
def fixtureCandidate : Candidate := { source_id := "sam-gov", external_id := "X" }

/-- Eleven equal-scoring alertable records (ids 0–10), one more than the
email body shows. -/
def fixtureManyStore : Store :=
  ⟨(List.range 11).map (fun i => { fixtureHighProject with id := i }), 11⟩

/-! ## Theorems -/

/-- **C8.** For every title, description and optional user-keyword string the
baseline score satisfies `1 ≤ score_match ≤ 99`, and the value boost
(+4 for value ≥ 500000, +2 for value ≥ 100000, none when absent) applied to
a score in `[1, 99]` never yields a result above 99. -/
theorem claim_C8_baseline_score_bounds (title description : String) (kw : Option String)
    (s : Int) (v : Option Int) (h1 : 1 ≤ s) (h2 : s ≤ 99) :
    1 ≤ score_match title description kw ∧ score_match title description kw ≤ 99 ∧
    score_with_value_boost s v ≤ 99 ∧
    (v = none → score_with_value_boost s v = s) ∧
    (∀ x, v = some x → 500000 ≤ x → score_with_value_boost s v = min (s + 4) 99) ∧
    (∀ x, v = some x → 100000 ≤ x → x < 500000 →
      score_with_value_boost s v = min (s + 2) 99) := by
  obtain ⟨x, hx⟩ : ∃ x : Int, score_match title description kw = max 1 (min x 99) := ⟨_, rfl⟩
  refine ⟨?_, ?_, ?_, ?_, ?_, ?_⟩
  · rw [hx]; exact le_max_left 1 _
  · rw [hx]
    exact max_le (by norm_num) (min_le_right _ _)
  · rcases v with _ | y
    · exact h2
    · dsimp only [score_with_value_boost]
      split_ifs
      · exact h2
      · exact min_le_right _ _
      · exact min_le_right _ _
      · exact h2
  · intro hv; rw [hv]; rfl
  · intro y hv hy; rw [hv]
    dsimp only [score_with_value_boost]
    rw [if_neg (show ¬y = 0 by omega), if_pos hy]
  · intro y hv hy1 hy2; rw [hv]
    dsimp only [score_with_value_boost]
    rw [if_neg (show ¬y = 0 by omega), if_neg (show ¬500000 ≤ y by omega), if_pos hy1]

theorem claim_C8_witness :
    (1 : Int) ≤ 50 ∧ (50 : Int) ≤ 99 ∧
    (1 ≤ score_match "masonry" "" none ∧ score_match "masonry" "" none ≤ 99 ∧
     score_with_value_boost 50 (some (600000 : Int)) ≤ 99 ∧
     (some (600000 : Int) = none → score_with_value_boost 50 (some 600000) = 50) ∧
     (∀ x : Int, some (600000 : Int) = some x → 500000 ≤ x →
       score_with_value_boost 50 (some 600000) = min (50 + 4) 99) ∧
     (∀ x : Int, some (600000 : Int) = some x → 100000 ≤ x → x < 500000 →
       score_with_value_boost 50 (some 600000) = min (50 + 2) 99)) :=
  ⟨by norm_num, by norm_num,
   claim_C8_baseline_score_bounds "masonry" "" none 50 (some 600000)
     (by norm_num) (by norm_num)⟩

/-- **C9** (code bug).  At `now` = day 1, 00:00:00.500000 UTC, the liveness
reconciliation of `run_full_scan` flips a record last seen at day 1,
00:00:00.000000 — the same calendar day — to inactive, because the cutoff
`utcnow().replace(hour=0, minute=0, second=0)` keeps the current microsecond
component instead of being the start of the day (the SAM.gov cache check in
the very same file zeroes `microsecond`). -/
theorem claim_C9_liveness_cutoff_microsecond_bug :
    (run_full_scan (fun _ => Except.ok []) 86400500000 (some [])
        ⟨[fixtureOldProject], 1⟩).1.records.map (fun p => p.is_active) = [false] ∧
    fixtureOldProject.last_seen / 86400000000 = 86400500000 / 86400000000 ∧
    fixtureOldProject.is_active = true ∧
    hmsCutoff 86400500000 ≠ dayStart 86400500000 := by decide

/-- **C3** (code bug).  A batch containing twice the same natural key that is
not yet in the store makes `upsert_projects` raise (both candidates take the
insert path because the existence check runs under `no_autoflush` and cannot
see the batch's own pending insert; the flush then violates
`uq_source_external`), and the surrounding source scan is recorded as an
error instead of tolerating the duplicate. -/
theorem claim_C3_inbatch_duplicate_fails :
    upsert_projects 10 ⟨[], 0⟩ [fixtureCandidate, fixtureCandidate] =
      Except.error "IntegrityError: uq_source_external" ∧
    (run_source_scan (fun _ => Except.ok [fixtureCandidate, fixtureCandidate]) 10
        ⟨[], 0⟩ "scbo").2.status = "error" ∧
    (run_source_scan (fun _ => Except.ok [fixtureCandidate, fixtureCandidate]) 10
        ⟨[], 0⟩ "scbo").1 = ⟨[], 0⟩ :=
  ⟨rfl, rfl, rfl⟩

/-- **C2** (counterexample).  On the concrete input
`title = "historic brick"`, `description = ""`, the score dict computed by
`classify_project` is exactly a tie for the highest count — the
historic-restoration and masonry groups each match once, every other group
zero — yet the function returns `"historic-restoration"` (the first tied
group in pattern order) and not `"residential"`, so the claim's tie clause
is false on the code. -/
theorem claim_C2_tie_counterexample :
    categoryScores "historic brick" "" =
      [("historic-restoration", 1), ("masonry", 1), ("structural", 0),
       ("government", 0), ("commercial", 0)] ∧
    classify_project "historic brick" "" = "historic-restoration" ∧
    classify_project "historic brick" "" ≠ "residential" := by decide

/-- **C5** (counterexample).  A subscriber with both channels enabled, one
new record, email delivery failing and SMS succeeding: the first pass writes
only the SMS receipt; the next pass — even with every delivery now
succeeding — writes nothing, so the record is *not* retried on the email
channel (the any-channel receipt excludes it), contradicting the claim's
"remain eligible for retry on that channel". -/
theorem claim_C5_failed_channel_counterexample :
    process_alerts deliverSmsOnly 90000000000 6 [fixtureUser] ⟨[fixtureHighProject], 8⟩ [] =
      [{ user_id := 1, project_id := 7, alert_type := "sms" }] ∧
    process_alerts deliverAll 90000000001 6 [fixtureUser] ⟨[fixtureHighProject], 8⟩
        [{ user_id := 1, project_id := 7, alert_type := "sms" }] =
      [{ user_id := 1, project_id := 7, alert_type := "sms" }] := by decide

/-- **C1** (spec-modelled: `score_against_profile` is absent from the source;
see its doc comment).  The profile score is in `[0, 100]` (it is a `Nat`,
so only the upper bound is stated); zero configured criteria give exactly
50; with all four criteria configured, a record satisfying all four scores
exactly 100 and one satisfying none scores exactly 0. -/
theorem claim_C1_profile_scorer (p : Project) (u : User) :
    score_against_profile p u ≤ 100 ∧
    ((u.criteria_min_value = none ∧ u.criteria_categories = [] ∧
      u.criteria_statuses = [] ∧ u.criteria_sources = []) →
      score_against_profile p u = 50) ∧
    (∀ t v, u.criteria_min_value = some t → u.criteria_categories ≠ [] →
      u.criteria_statuses ≠ [] → u.criteria_sources ≠ [] →
      p.value = some v → t ≤ v → p.category ∈ u.criteria_categories →
      p.status ∈ u.criteria_statuses → p.source_id ∈ u.criteria_sources →
      score_against_profile p u = 100) ∧
    (∀ t, u.criteria_min_value = some t → u.criteria_categories ≠ [] →
      u.criteria_statuses ≠ [] → u.criteria_sources ≠ [] →
      (∀ v, p.value = some v → v < t) → p.category ∉ u.criteria_categories →
      p.status ∉ u.criteria_statuses → p.source_id ∉ u.criteria_sources →
      score_against_profile p u = 0) := by
  refine ⟨?_, ?_, ?_, ?_⟩
  · unfold score_against_profile
    split
    · omega
    · rename_i hc
      have hm := List.length_filter_le id (profileUnits p u)
      have hpos : 0 < (profileUnits p u).length := Nat.pos_of_ne_zero hc
      have hlt : roundPct ((profileUnits p u).filter id).length (profileUnits p u).length
          < 101 := by
        unfold roundPct
        exact (Nat.div_lt_iff_lt_mul (by omega)).2 (by omega)
      omega
  · rintro ⟨h1, h2, h3, h4⟩
    simp [score_against_profile, profileUnits, h1, h2, h3, h4]
  · intro t v h1 h2 h3 h4 hv htv hcat hst hsrc
    simp [score_against_profile, profileUnits, roundPct, h1, h2, h3, h4, hv, htv,
      hcat, hst, hsrc]
  · intro t h1 h2 h3 h4 hv hcat hst hsrc
    rcases hpv : p.value with _ | v
    · simp [score_against_profile, profileUnits, roundPct, h1, h2, h3, h4, hpv,
        hcat, hst, hsrc]
    · have := hv v hpv
      simp [score_against_profile, profileUnits, roundPct, h1, h2, h3, h4, hpv,
        hcat, hst, hsrc, not_le.2 this]

theorem claim_C1_witness :
    score_against_profile fixtureHighProject fixtureUser = 50 ∧
    score_against_profile
      { fixtureHighProject with value := some 1200000, category := "government" }
      { fixtureUser with
        criteria_min_value := some 1000000, criteria_categories := ["government"],
        criteria_statuses := ["Open"], criteria_sources := ["charleston-permits"] } = 100 :=
  ⟨(claim_C1_profile_scorer fixtureHighProject fixtureUser).2.1 ⟨rfl, rfl, rfl, rfl⟩,
   (claim_C1_profile_scorer
      { fixtureHighProject with value := some 1200000, category := "government" }
      { fixtureUser with
        criteria_min_value := some 1000000, criteria_categories := ["government"],
        criteria_statuses := ["Open"], criteria_sources := ["charleston-permits"] }).2.2.1
     1000000 1200000 rfl (by decide) (by decide) (by decide) rfl (by decide)
     (by decide) (by decide) (by decide)⟩

/-! ### Helper lemmas about the upsert engine -/

theorem findProj_eq_none (recs : List Project) (sid eid : String)
    (h : findProj recs sid eid = none) :
    ∀ p ∈ recs, ¬(p.source_id = sid ∧ p.external_id = eid) := by
  unfold findProj at h
  rw [List.find?_eq_none] at h
  intro p hp
  have := h p hp
  simpa using this

theorem keyOf_ne_of_not_match (p : Project) (sid eid : String)
    (h : ¬(p.source_id = sid ∧ p.external_id = eid)) : keyOf p ≠ (sid, eid) := by
  unfold keyOf
  intro he
  exact h ⟨congrArg Prod.fst he, congrArg Prod.snd he⟩

theorem updateByKey_absent (n : Nat) (c : Candidate) (recs : List Project)
    (h : ∀ p ∈ recs, ¬(p.source_id = c.source_id ∧ p.external_id = c.external_id)) :
    updateByKey n c recs = recs := by
  unfold updateByKey
  have he : ∀ p ∈ recs,
      (if p.source_id = c.source_id ∧ p.external_id = c.external_id then
        applyUpdate n c p else p) = id p := by
    intro p hp; rw [if_neg (h p hp)]; rfl
  rw [List.map_congr_left he, List.map_id]

/-- **C7.**  Upserting the same candidate twice in sequence, starting from a
store that does not contain its natural key, succeeds both times (the first
reports one new record, the second zero), leaves exactly one stored record
with that key, and that record keeps `first_seen` from the first upsert, has
`last_seen` advanced to the second upsert's time, is active, and carries the
candidate's natural key; moreover no update ever changes a record's natural
key. -/
theorem claim_C7_upsert_idempotent (now1 now2 : Nat) (st : Store) (c : Candidate)
    (hnodup : (st.records.map keyOf).Nodup)
    (habsent : findProj st.records c.source_id c.external_id = none) :
    ∃ st1 st2 r,
      upsert_projects now1 st [c] = Except.ok (st1, 1, 1) ∧
      upsert_projects now2 st1 [c] = Except.ok (st2, 1, 0) ∧
      st2.records.filter (fun p => keyOf p = (c.source_id, c.external_id)) = [r] ∧
      r.first_seen = now1 ∧ r.last_seen = now2 ∧ r.is_active = true ∧
      r.source_id = c.source_id ∧ r.external_id = c.external_id ∧
      (∀ n d q, keyOf (applyUpdate n d q) = keyOf q) := by
  have habs := findProj_eq_none st.records c.source_id c.external_id habsent
  refine ⟨⟨st.records ++ [newProject st.nextId now1 c], st.nextId + 1⟩,
    ⟨st.records ++ [applyUpdate now2 c (newProject st.nextId now1 c)], st.nextId + 1⟩,
    applyUpdate now2 c (newProject st.nextId now1 c), ?_, ?_, ?_, rfl, rfl, rfl, rfl, rfl,
    fun _ _ _ => rfl⟩
  · have hloop : upsertLoop now1 [c] st.records [] st.nextId 0 =
        (st.records, [newProject st.nextId now1 c], st.nextId + 1, 1) := by
      simp [upsertLoop, habsent]
    have hnd : ((st.records ++ [newProject st.nextId now1 c]).map keyOf).Nodup := by
      rw [List.map_append, List.nodup_append]
      refine ⟨hnodup, by simp, ?_⟩
      intro a ha hb
      simp only [List.map_cons, List.map_nil, List.mem_singleton] at hb
      rw [List.mem_map] at ha
      obtain ⟨p, hp, hkp⟩ := ha
      exact keyOf_ne_of_not_match p c.source_id c.external_id (habs p hp) (hkp.symm ▸ hb)
    simp only [List.map_append, List.map_cons, List.map_nil] at hnd
    simp [upsert_projects, hloop, hnd]
  · have hfind : findProj (st.records ++ [newProject st.nextId now1 c])
        c.source_id c.external_id = some (newProject st.nextId now1 c) := by
      unfold findProj at habsent ⊢
      rw [List.find?_append, habsent]
      simp [newProject]
    have hloop : upsertLoop now2 [c] (st.records ++ [newProject st.nextId now1 c]) []
        (st.nextId + 1) 0 =
        (updateByKey now2 c (st.records ++ [newProject st.nextId now1 c]), [],
         st.nextId + 1, 0) := by
      simp [upsertLoop, hfind]
    have hupd : updateByKey now2 c (st.records ++ [newProject st.nextId now1 c]) =
        st.records ++ [applyUpdate now2 c (newProject st.nextId now1 c)] := by
      unfold updateByKey
      rw [List.map_append]
      congr 1
      · exact updateByKey_absent now2 c st.records habs
      · simp [newProject]
    have hnd : ((st.records ++ [applyUpdate now2 c (newProject st.nextId now1 c)]).map
        keyOf).Nodup := by
      rw [List.map_append, List.nodup_append]
      refine ⟨hnodup, by simp, ?_⟩
      intro a ha hb
      simp only [List.map_cons, List.map_nil, List.mem_singleton] at hb
      rw [List.mem_map] at ha
      obtain ⟨p, hp, hkp⟩ := ha
      exact keyOf_ne_of_not_match p c.source_id c.external_id (habs p hp) (hkp.symm ▸ hb)
    simp only [List.map_append, List.map_cons, List.map_nil] at hnd
    simp [upsert_projects, hloop, hupd, hnd]
  · rw [List.filter_append]
    have hl : st.records.filter
        (fun p => keyOf p = (c.source_id, c.external_id)) = [] := by
      rw [List.filter_eq_nil_iff]
      intro p hp
      simp only [decide_eq_true_eq]
      exact keyOf_ne_of_not_match p c.source_id c.external_id (habs p hp)
    rw [hl]
    simp [keyOf, applyUpdate, newProject]

theorem claim_C7_witness :
    ∃ st1 st2 r,
      upsert_projects 10 ⟨[], 0⟩ [fixtureCandidate] = Except.ok (st1, 1, 1) ∧
      upsert_projects 20 st1 [fixtureCandidate] = Except.ok (st2, 1, 0) ∧
      st2.records.filter
        (fun p => keyOf p = (fixtureCandidate.source_id, fixtureCandidate.external_id)) = [r] ∧
      r.first_seen = 10 ∧ r.last_seen = 20 ∧ r.is_active = true ∧
      r.source_id = fixtureCandidate.source_id ∧
      r.external_id = fixtureCandidate.external_id ∧
      (∀ n d q, keyOf (applyUpdate n d q) = keyOf q) :=
  claim_C7_upsert_idempotent 10 20 ⟨[], 0⟩ fixtureCandidate (by simp) rfl

/-- **C4.**  In a full scan over the three sources A = charleston-permits,
B = scbo, C = charleston-city-bids where B's connector raises and A's and
C's batches upsert successfully, B's ScanRun ends in `"error"` with the
truncated message, A's and C's ScanRuns end in `"success"` with their
counts, and the final store is exactly A's and C's upserts (followed by the
liveness reconciliation) — one source's failure aborts nothing else. -/
theorem claim_C4_per_source_isolation
    (fetch : String → Except String (List Candidate)) (now : Nat) (st stA stC : Store)
    (bA bC : List Candidate) (m : String) (tA nA tC nC : Nat)
    (hA : fetch "charleston-permits" = Except.ok bA)
    (hB : fetch "scbo" = Except.error m)
    (hC : fetch "charleston-city-bids" = Except.ok bC)
    (huA : upsert_projects now st bA = Except.ok (stA, tA, nA))
    (huC : upsert_projects now stA bC = Except.ok (stC, tC, nC)) :
    (run_full_scan fetch now
        (some ["charleston-permits", "scbo", "charleston-city-bids"]) st).2.map
        (fun l => (l.status, l.error_message, l.projects_found, l.projects_new)) =
      [("success", "", tA, nA), ("error", m.take 500, 0, 0), ("success", "", tC, nC)] ∧
    (run_full_scan fetch now
        (some ["charleston-permits", "scbo", "charleston-city-bids"]) st).1.records =
      markInactive now stC.records := by
  have eA : run_source_scan fetch now st "charleston-permits" =
      (stA, { source_id := "charleston-permits", started_at := now, finished_at := some now,
              status := "success", projects_found := tA, projects_new := nA,
              error_message := "" }) := by
    unfold run_source_scan getProjects
    rw [if_neg (by decide), if_pos rfl, hA]
    dsimp only
    rw [huA]
  have eB : run_source_scan fetch now stA "scbo" =
      (stA, { source_id := "scbo", started_at := now, finished_at := some now,
              status := "error", projects_found := 0, projects_new := 0,
              error_message := m.take 500 }) := by
    unfold run_source_scan getProjects
    rw [if_neg (by decide), if_neg (by decide), if_pos rfl, hB]
  have eC : run_source_scan fetch now stA "charleston-city-bids" =
      (stC, { source_id := "charleston-city-bids", started_at := now,
              finished_at := some now, status := "success", projects_found := tC,
              projects_new := nC, error_message := "" }) := by
    unfold run_source_scan getProjects
    rw [if_neg (by decide), if_neg (by decide), if_neg (by decide), if_pos rfl, hC]
    dsimp only
    rw [huC]
  constructor
  · simp [run_full_scan, scannerIds, eA, eB, eC]
  · simp [run_full_scan, scannerIds, eA, eB, eC]

theorem claim_C4_witness :
    (run_full_scan
        (fun sid => if sid = "scbo" then Except.error "boom" else Except.ok [])
        7 (some ["charleston-permits", "scbo", "charleston-city-bids"]) ⟨[], 0⟩).2.map
        (fun l => (l.status, l.error_message, l.projects_found, l.projects_new)) =
      [("success", "", 0, 0), ("error", "boom".take 500, 0, 0), ("success", "", 0, 0)] ∧
    (run_full_scan
        (fun sid => if sid = "scbo" then Except.error "boom" else Except.ok [])
        7 (some ["charleston-permits", "scbo", "charleston-city-bids"]) ⟨[], 0⟩).1.records =
      markInactive 7 (⟨[], 0⟩ : Store).records := by
  have h := claim_C4_per_source_isolation
    (fun sid => if sid = "scbo" then Except.error "boom" else Except.ok [])
    7 ⟨[], 0⟩ ⟨[], 0⟩ ⟨[], 0⟩ [] [] "boom" 0 0 0 0 rfl rfl rfl rfl rfl
  exact h

/-- Selection behaviour of `pickCategory` on a five-entry score list:
all-zero counts give `"residential"`; otherwise the first entry whose count
is maximal wins (strictly above every earlier entry, at least every later
one). -/
theorem pickCategory_five (c1 c2 c3 c4 c5 : String) (n1 n2 n3 n4 n5 : Nat) :
    ((n1 = 0 ∧ n2 = 0 ∧ n3 = 0 ∧ n4 = 0 ∧ n5 = 0) →
      pickCategory [(c1, n1), (c2, n2), (c3, n3), (c4, n4), (c5, n5)] = "residential") ∧
    (0 < n1 → n2 ≤ n1 → n3 ≤ n1 → n4 ≤ n1 → n5 ≤ n1 →
      pickCategory [(c1, n1), (c2, n2), (c3, n3), (c4, n4), (c5, n5)] = c1) ∧
    (0 < n2 → n1 < n2 → n3 ≤ n2 → n4 ≤ n2 → n5 ≤ n2 →
      pickCategory [(c1, n1), (c2, n2), (c3, n3), (c4, n4), (c5, n5)] = c2) ∧
    (0 < n3 → n1 < n3 → n2 < n3 → n4 ≤ n3 → n5 ≤ n3 →
      pickCategory [(c1, n1), (c2, n2), (c3, n3), (c4, n4), (c5, n5)] = c3) ∧
    (0 < n4 → n1 < n4 → n2 < n4 → n3 < n4 → n5 ≤ n4 →
      pickCategory [(c1, n1), (c2, n2), (c3, n3), (c4, n4), (c5, n5)] = c4) ∧
    (0 < n5 → n1 < n5 → n2 < n5 → n3 < n5 → n4 < n5 →
      pickCategory [(c1, n1), (c2, n2), (c3, n3), (c4, n4), (c5, n5)] = c5) := by
  refine ⟨?_, ?_, ?_, ?_, ?_, ?_⟩
  · rintro ⟨h1, h2, h3, h4, h5⟩
    subst h1; subst h2; subst h3; subst h4; subst h5
    rfl
  all_goals
    intro h0 ha hb hc hd
    unfold pickCategory
    rw [if_neg (by simp only [List.map, List.foldl, Nat.max_eq_zero_iff]; omega)]
    simp only [List.foldl]
    split_ifs <;> first | rfl | (exfalso; omega)

/-- **C2** (amended).  For every title and description, `classify_project`
returns the category whose keyword group has the strictly highest match
count over the concatenated text, and the all-zero case returns
`"residential"`; a tie for the highest count, however, resolves to the
first tied group in the fixed pattern order (historic-restoration, masonry,
structural, government, commercial), not to `"residential"`. -/
theorem claim_C2_classifier_first_max (title description : String) :
    ((countMatches patHistoric (lowerStr (title ++ " " ++ description)) = 0 ∧
      countMatches patMasonry (lowerStr (title ++ " " ++ description)) = 0 ∧
      countMatches patStructural (lowerStr (title ++ " " ++ description)) = 0 ∧
      countMatches patGovernment (lowerStr (title ++ " " ++ description)) = 0 ∧
      countMatches patCommercial (lowerStr (title ++ " " ++ description)) = 0) →
      classify_project title description = "residential") ∧
    (0 < countMatches patHistoric (lowerStr (title ++ " " ++ description)) →
      countMatches patMasonry (lowerStr (title ++ " " ++ description)) ≤
        countMatches patHistoric (lowerStr (title ++ " " ++ description)) →
      countMatches patStructural (lowerStr (title ++ " " ++ description)) ≤
        countMatches patHistoric (lowerStr (title ++ " " ++ description)) →
      countMatches patGovernment (lowerStr (title ++ " " ++ description)) ≤
        countMatches patHistoric (lowerStr (title ++ " " ++ description)) →
      countMatches patCommercial (lowerStr (title ++ " " ++ description)) ≤
        countMatches patHistoric (lowerStr (title ++ " " ++ description)) →
      classify_project title description = "historic-restoration") ∧
    (0 < countMatches patMasonry (lowerStr (title ++ " " ++ description)) →
      countMatches patHistoric (lowerStr (title ++ " " ++ description)) <
        countMatches patMasonry (lowerStr (title ++ " " ++ description)) →
      countMatches patStructural (lowerStr (title ++ " " ++ description)) ≤
        countMatches patMasonry (lowerStr (title ++ " " ++ description)) →
      countMatches patGovernment (lowerStr (title ++ " " ++ description)) ≤
        countMatches patMasonry (lowerStr (title ++ " " ++ description)) →
      countMatches patCommercial (lowerStr (title ++ " " ++ description)) ≤
        countMatches patMasonry (lowerStr (title ++ " " ++ description)) →
      classify_project title description = "masonry") ∧
    (0 < countMatches patStructural (lowerStr (title ++ " " ++ description)) →
      countMatches patHistoric (lowerStr (title ++ " " ++ description)) <
        countMatches patStructural (lowerStr (title ++ " " ++ description)) →
      countMatches patMasonry (lowerStr (title ++ " " ++ description)) <
        countMatches patStructural (lowerStr (title ++ " " ++ description)) →
      countMatches patGovernment (lowerStr (title ++ " " ++ description)) ≤
        countMatches patStructural (lowerStr (title ++ " " ++ description)) →
      countMatches patCommercial (lowerStr (title ++ " " ++ description)) ≤
        countMatches patStructural (lowerStr (title ++ " " ++ description)) →
      classify_project title description = "structural") ∧
    (0 < countMatches patGovernment (lowerStr (title ++ " " ++ description)) →
      countMatches patHistoric (lowerStr (title ++ " " ++ description)) <
        countMatches patGovernment (lowerStr (title ++ " " ++ description)) →
      countMatches patMasonry (lowerStr (title ++ " " ++ description)) <
        countMatches patGovernment (lowerStr (title ++ " " ++ description)) →
      countMatches patStructural (lowerStr (title ++ " " ++ description)) <
        countMatches patGovernment (lowerStr (title ++ " " ++ description)) →
      countMatches patCommercial (lowerStr (title ++ " " ++ description)) ≤
        countMatches patGovernment (lowerStr (title ++ " " ++ description)) →
      classify_project title description = "government") ∧
    (0 < countMatches patCommercial (lowerStr (title ++ " " ++ description)) →
      countMatches patHistoric (lowerStr (title ++ " " ++ description)) <
        countMatches patCommercial (lowerStr (title ++ " " ++ description)) →
      countMatches patMasonry (lowerStr (title ++ " " ++ description)) <
        countMatches patCommercial (lowerStr (title ++ " " ++ description)) →
      countMatches patStructural (lowerStr (title ++ " " ++ description)) <
        countMatches patCommercial (lowerStr (title ++ " " ++ description)) →
      countMatches patGovernment (lowerStr (title ++ " " ++ description)) <
        countMatches patCommercial (lowerStr (title ++ " " ++ description)) →
      classify_project title description = "commercial") := by
  have e : classify_project title description = pickCategory
      [("historic-restoration", countMatches patHistoric (lowerStr (title ++ " " ++ description))),
       ("masonry", countMatches patMasonry (lowerStr (title ++ " " ++ description))),
       ("structural", countMatches patStructural (lowerStr (title ++ " " ++ description))),
       ("government", countMatches patGovernment (lowerStr (title ++ " " ++ description))),
       ("commercial", countMatches patCommercial (lowerStr (title ++ " " ++ description)))] :=
    rfl
  rw [e]
  exact pickCategory_five _ _ _ _ _ _ _ _ _ _

theorem claim_C2_witness :
    classify_project "historic brick" "" = "historic-restoration" ∧
    classify_project "brick mortar" "" = "masonry" :=
  ⟨(claim_C2_classifier_first_max "historic brick" "").2.1 (by decide) (by decide)
     (by decide) (by decide) (by decide),
   (claim_C2_classifier_first_max "brick mortar" "").2.2.1 (by decide) (by decide)
     (by decide) (by decide) (by decide)⟩

/-! ### Helper lemmas about the alert engine -/

theorem perm_insertDesc (p : Project) (l : List Project) :
    List.Perm (insertDesc p l) (p :: l) := by
  induction l with
  | nil => simp [insertDesc]
  | cons q t ih =>
    unfold insertDesc
    split_ifs
    · exact List.Perm.refl _
    · exact (ih.cons q).trans (List.Perm.swap p q t)

theorem perm_sortScoreDesc (l : List Project) : List.Perm (sortScoreDesc l) l := by
  induction l with
  | nil => exact List.Perm.refl _
  | cons p t ih => exact (perm_insertDesc p (sortScoreDesc t)).trans (ih.cons p)

theorem mem_sortScoreDesc {a : Project} {l : List Project} :
    a ∈ sortScoreDesc l ↔ a ∈ l :=
  (perm_sortScoreDesc l).mem_iff

theorem mem_alreadyIds {hist : List AlertHistory} {uid x : Nat} :
    x ∈ alreadyIds hist uid ↔ ∃ r ∈ hist, r.user_id = uid ∧ r.project_id = x := by
  simp only [alreadyIds, List.mem_map, List.mem_filter, decide_eq_true_eq]
  constructor
  · rintro ⟨r, ⟨hr, hu⟩, hp⟩
    exact ⟨r, hr, hu, hp⟩
  · rintro ⟨r, hr, hu, hp⟩
    exact ⟨r, ⟨hr, hu⟩, hp⟩

theorem alreadyIds_append (h a : List AlertHistory) (uid : Nat) :
    alreadyIds (h ++ a) uid = alreadyIds h uid ++ alreadyIds a uid := by
  simp [alreadyIds, List.filter_append]

theorem newProjects_anti {now1 now2 cron : Nat} {st : Store} {u : User}
    (h : now1 ≤ now2) :
    ∀ p ∈ newProjects now2 cron st u, p ∈ newProjects now1 cron st u := by
  intro p hp
  rw [newProjects, mem_sortScoreDesc, List.mem_filter] at hp ⊢
  obtain ⟨hmem, hcond⟩ := hp
  refine ⟨hmem, ?_⟩
  simp only [Bool.and_eq_true, decide_eq_true_eq] at hcond ⊢
  refine ⟨⟨?_, hcond.1.2⟩, hcond.2⟩
  exact le_trans (Nat.sub_le_sub_right h _) hcond.1.1

theorem alertUser_suffix (d : String → String → String → Bool) (now cron : Nat)
    (st : Store) (hist : List AlertHistory) (u : User) :
    ∃ a, alertUser d now cron st hist u = hist ++ a := by
  simp only [alertUser]
  split_ifs <;>
    first
    | exact ⟨[], (List.append_nil hist).symm⟩
    | exact ⟨_, rfl⟩
    | exact ⟨_, List.append_assoc _ _ _⟩

theorem foldl_alertUser_suffix (d : String → String → String → Bool) (now cron : Nat)
    (st : Store) (us : List User) (hist : List AlertHistory) :
    ∃ a, us.foldl (alertUser d now cron st) hist = hist ++ a := by
  induction us generalizing hist with
  | nil => exact ⟨[], by simp⟩
  | cons u t ih =>
    obtain ⟨a1, h1⟩ := alertUser_suffix d now cron st hist u
    obtain ⟨a2, h2⟩ := ih (hist ++ a1)
    exact ⟨a1 ++ a2, by simp [List.foldl_cons, h1, h2]⟩

theorem userSettled_append (now cron : Nat) (st : Store) {hist a : List AlertHistory}
    {u : User} (h : userSettled now cron st hist u) :
    userSettled now cron st (hist ++ a) u := by
  rcases h with h | h
  · left
    intro p hp
    rw [alreadyIds_append]
    exact List.mem_append_left _ (h p hp)
  · right; exact h

theorem toAlert_eq_nil_of_covered {now1 now2 cron : Nat} {st : Store}
    {hist : List AlertHistory} {u : User} (hnow : now1 ≤ now2)
    (hcov : ∀ p ∈ newProjects now1 cron st u, p.id ∈ alreadyIds hist u.id) :
    toAlert now2 cron st hist u = [] := by
  rw [toAlert, List.filter_eq_nil_iff]
  intro p hp
  have := hcov p (newProjects_anti hnow p hp)
  simp [this]

theorem alertUser_settles (d : String → String → String → Bool) (now cron : Nat)
    (st : Store) (hist : List AlertHistory) (u : User)
    (hd : ∀ ch r b, d ch r b = true) :
    userSettled now cron st (alertUser d now cron st hist u) u := by
  by_cases hnew : (newProjects now cron st u).isEmpty
  · left
    intro p hp
    rw [List.isEmpty_iff] at hnew
    rw [hnew] at hp
    cases hp
  · by_cases hta : (toAlert now cron st hist u).isEmpty
    · have hres : alertUser d now cron st hist u = hist := by
        simp only [alertUser]
        rw [if_neg hnew, if_pos hta]
      rw [hres]
      left
      intro p hp
      rw [List.isEmpty_iff, toAlert, List.filter_eq_nil_iff] at hta
      by_contra hnot
      exact hta p hp (by simpa using hnot)
    · by_cases hem : u.email_alerts = true ∧ u.email ≠ ""
      · have hres : ∃ tail, alertUser d now cron st hist u =
            (hist ++ emailReceipts u (toAlert now cron st hist u)) ++ tail := by
          simp only [alertUser]
          rw [if_neg hnew, if_neg hta, if_pos hem, hd "email" u.email _, if_pos rfl]
          split_ifs
          · exact ⟨_, rfl⟩
          · exact ⟨[], (List.append_nil _).symm⟩
          · exact ⟨[], (List.append_nil _).symm⟩
        obtain ⟨tail, htail⟩ := hres
        rw [htail]
        apply userSettled_append
        left
        intro p hp
        rw [alreadyIds_append]
        by_cases hal : p.id ∈ alreadyIds hist u.id
        · exact List.mem_append_left _ hal
        · apply List.mem_append_right
          rw [mem_alreadyIds]
          refine ⟨{ user_id := u.id, project_id := p.id, alert_type := "email" }, ?_, rfl, rfl⟩
          simp only [emailReceipts, List.mem_map]
          exact ⟨p, by rw [toAlert, List.mem_filter]; exact ⟨hp, by simpa using hal⟩, rfl⟩
      · by_cases hsm : u.sms_alerts = true ∧ u.phone ≠ ""
        · have hres : alertUser d now cron st hist u =
              hist ++ smsReceipts u (toAlert now cron st hist u) := by
            simp only [alertUser]
            rw [if_neg hnew, if_neg hta, if_neg hem, if_pos hsm,
              hd "sms" u.phone _, if_pos rfl]
          rw [hres]
          left
          intro p hp
          rw [alreadyIds_append]
          by_cases hal : p.id ∈ alreadyIds hist u.id
          · exact List.mem_append_left _ hal
          · apply List.mem_append_right
            rw [mem_alreadyIds]
            refine ⟨{ user_id := u.id, project_id := p.id, alert_type := "sms" }, ?_, rfl, rfl⟩
            simp only [smsReceipts, List.mem_map]
            exact ⟨p, by rw [toAlert, List.mem_filter]; exact ⟨hp, by simpa using hal⟩, rfl⟩
        · right
          constructor
          · rcases not_and_or.1 hem with h | h
            · left; exact Bool.not_eq_true _ ▸ Bool.eq_false_iff.2 h
            · right; exact not_not.1 h
          · rcases not_and_or.1 hsm with h | h
            · left; exact Bool.not_eq_true _ ▸ Bool.eq_false_iff.2 h
            · right; exact not_not.1 h

theorem alertUser_skip (d : String → String → String → Bool) (now1 now2 cron : Nat)
    (st : Store) (hist : List AlertHistory) (u : User)
    (hset : userSettled now1 cron st hist u) (hnow : now1 ≤ now2) :
    alertUser d now2 cron st hist u = hist := by
  rcases hset with hcov | ⟨he, hs⟩
  · have h0 := toAlert_eq_nil_of_covered hnow hcov
    simp only [alertUser]
    by_cases h1 : (newProjects now2 cron st u).isEmpty
    · rw [if_pos h1]
    · rw [if_neg h1, h0]
      simp
  · have he' : ¬(u.email_alerts = true ∧ u.email ≠ "") := by
      rcases he with h | h <;> simp [h]
    have hs' : ¬(u.sms_alerts = true ∧ u.phone ≠ "") := by
      rcases hs with h | h <;> simp [h]
    simp only [alertUser]
    rw [if_neg he', if_neg hs']
    split_ifs <;> rfl

theorem foldl_alertUser_settles (d : String → String → String → Bool) (now cron : Nat)
    (st : Store) (hd : ∀ ch r b, d ch r b = true) (us : List User)
    (hist : List AlertHistory) :
    ∀ u ∈ us, userSettled now cron st (us.foldl (alertUser d now cron st) hist) u := by
  induction us generalizing hist with
  | nil => intro u hu; cases hu
  | cons v t ih =>
    intro u hu
    rw [List.foldl_cons]
    rcases List.mem_cons.1 hu with rfl | hu2
    · obtain ⟨a, ha⟩ :=
        foldl_alertUser_suffix d now cron st t (alertUser d now cron st hist u)
      rw [ha]
      exact userSettled_append now cron st (alertUser_settles d now cron st hist u hd)
    · exact ih (alertUser d now cron st hist v) u hu2

theorem foldl_alertUser_skip (d : String → String → String → Bool) (now1 now2 cron : Nat)
    (st : Store) (us : List User) (hist : List AlertHistory)
    (hset : ∀ u ∈ us, userSettled now1 cron st hist u) (hnow : now1 ≤ now2) :
    us.foldl (alertUser d now2 cron st) hist = hist := by
  induction us with
  | nil => rfl
  | cons v t ih =>
    rw [List.foldl_cons,
      alertUser_skip d now1 now2 cron st hist v (hset v (List.mem_cons_self v t)) hnow]
    exact ih (fun u hu => hset u (List.mem_cons_of_mem v hu))

theorem ids_nodup_sortScoreDesc (l : List Project)
    (h : (l.map (fun p => p.id)).Nodup) :
    ((sortScoreDesc l).map (fun p => p.id)).Nodup :=
  (((perm_sortScoreDesc l).map (fun p => p.id)).nodup_iff).2 h

theorem ids_nodup_toAlert (now cron : Nat) (st : Store) (hist : List AlertHistory)
    (u : User) (hids : (st.records.map (fun p => p.id)).Nodup) :
    ((toAlert now cron st hist u).map (fun p => p.id)).Nodup := by
  have h1 : ((newProjects now cron st u).map (fun p => p.id)).Nodup := by
    simp only [newProjects]
    exact ids_nodup_sortScoreDesc _
      (List.Nodup.sublist (List.Sublist.map _ (List.filter_sublist _)) hids)
  rw [toAlert]
  exact List.Nodup.sublist (List.Sublist.map _ (List.filter_sublist _)) h1

theorem nodup_channelReceipts (uid : Nat) (ch : String) (ps : List Project)
    (h : (ps.map (fun p => p.id)).Nodup) :
    (ps.map (fun p =>
      ({ user_id := uid, project_id := p.id, alert_type := ch } : AlertHistory))).Nodup := by
  have he : ps.map (fun p =>
      ({ user_id := uid, project_id := p.id, alert_type := ch } : AlertHistory)) =
      (ps.map (fun p => p.id)).map
        (fun i => { user_id := uid, project_id := i, alert_type := ch }) := by
    rw [List.map_map]
    rfl
  rw [he]
  refine List.Nodup.map ?_ h
  intro a b hab
  simpa using congrArg AlertHistory.project_id hab

theorem disjoint_hist_channelReceipts (now cron : Nat) (st : Store)
    (hist : List AlertHistory) (u : User) (ch : String) :
    List.Disjoint hist ((toAlert now cron st hist u).map (fun p =>
      ({ user_id := u.id, project_id := p.id, alert_type := ch } : AlertHistory))) := by
  intro r hr hm
  simp only [List.mem_map] at hm
  obtain ⟨p, hp, hre⟩ := hm
  rw [toAlert, List.mem_filter] at hp
  have h2 := hp.2
  simp only [decide_not, Bool.not_eq_eq_eq_not, Bool.not_true, decide_eq_false_iff_not] at h2
  apply h2
  rw [mem_alreadyIds]
  refine ⟨r, hr, ?_, ?_⟩
  · rw [← hre]
  · rw [← hre]

theorem alertUser_nodup (d : String → String → String → Bool) (now cron : Nat)
    (st : Store) (hist : List AlertHistory) (u : User)
    (hids : (st.records.map (fun p => p.id)).Nodup) (hh : hist.Nodup) :
    (alertUser d now cron st hist u).Nodup := by
  have hta := ids_nodup_toAlert now cron st hist u hids
  have hE : (hist ++ emailReceipts u (toAlert now cron st hist u)).Nodup := by
    rw [List.nodup_append]
    exact ⟨hh, nodup_channelReceipts u.id "email" _ hta,
      disjoint_hist_channelReceipts now cron st hist u "email"⟩
  have hS : (hist ++ smsReceipts u (toAlert now cron st hist u)).Nodup := by
    rw [List.nodup_append]
    exact ⟨hh, nodup_channelReceipts u.id "sms" _ hta,
      disjoint_hist_channelReceipts now cron st hist u "sms"⟩
  have hES : ((hist ++ emailReceipts u (toAlert now cron st hist u)) ++
      smsReceipts u (toAlert now cron st hist u)).Nodup := by
    rw [List.nodup_append]
    refine ⟨hE, nodup_channelReceipts u.id "sms" _ hta, ?_⟩
    intro r hr hm
    rcases List.mem_append.1 hr with hr1 | hr1
    · exact disjoint_hist_channelReceipts now cron st hist u "sms" hr1 hm
    · simp only [emailReceipts, smsReceipts, List.mem_map] at hr1 hm
      obtain ⟨p, _, hp⟩ := hr1
      obtain ⟨q, _, hq⟩ := hm
      rw [← hq] at hp
      have := congrArg AlertHistory.alert_type hp
      simp at this
  simp only [alertUser]
  split_ifs <;> first | exact hh | exact hE | exact hS | exact hES

theorem foldl_alertUser_nodup (d : String → String → String → Bool) (now cron : Nat)
    (st : Store) (us : List User) (hist : List AlertHistory)
    (hids : (st.records.map (fun p => p.id)).Nodup) (hh : hist.Nodup) :
    (us.foldl (alertUser d now cron st) hist).Nodup := by
  induction us generalizing hist with
  | nil => exact hh
  | cons v t ih =>
    rw [List.foldl_cons]
    exact ih _ (alertUser_nodup d now cron st hist v hids hh)

theorem process_alerts_nodup (d : String → String → String → Bool) (now cron : Nat)
    (users : List User) (st : Store) (hist : List AlertHistory)
    (hids : (st.records.map (fun p => p.id)).Nodup) (hh : hist.Nodup) :
    (process_alerts d now cron users st hist).Nodup := by
  unfold process_alerts
  dsimp only
  split_ifs
  · exact hh
  · exact foldl_alertUser_nodup d now cron st _ hist hids hh

/-- **C6.**  The alert pipeline never produces two AlertReceipts for the
same (subscriber, record, channel) triple: starting from a duplicate-free
history, `process_alerts` returns a duplicate-free history (a receipt *is*
the triple in this model), for any delivery outcomes.  And running
`process_alerts` twice in a row with no new scan in between (same store,
the second invocation no earlier than the first) with every delivery of the
first pass succeeding produces zero new receipts the second time, for every
subscriber: the second pass returns the first pass's history unchanged. -/
theorem claim_C6_alert_non_duplication (d : String → String → String → Bool)
    (now1 now2 cron : Nat) (users : List User) (st : Store) (hist : List AlertHistory)
    (hids : (st.records.map (fun p => p.id)).Nodup)
    (hd : ∀ ch r b, d ch r b = true) (hnow : now1 ≤ now2) :
    (∀ (d2 : String → String → String → Bool) (h : List AlertHistory), h.Nodup →
      (process_alerts d2 now1 cron users st h).Nodup) ∧
    process_alerts d now2 cron users st (process_alerts d now1 cron users st hist) =
      process_alerts d now1 cron users st hist := by
  constructor
  · intro d2 h hh
    exact process_alerts_nodup d2 now1 cron users st h hids hh
  · unfold process_alerts
    dsimp only
    by_cases he : (users.filter (fun u => u.email_alerts || u.sms_alerts)).isEmpty
    · simp only [if_pos he]
    · simp only [if_neg he]
      exact foldl_alertUser_skip d now1 now2 cron st _ _
        (foldl_alertUser_settles d now1 cron st hd _ hist) hnow

theorem claim_C6_witness :
    (∀ (d2 : String → String → String → Bool) (h : List AlertHistory), h.Nodup →
      (process_alerts d2 90000000000 6 [fixtureUser] ⟨[fixtureHighProject], 8⟩ h).Nodup) ∧
    process_alerts deliverAll 90000000001 6 [fixtureUser] ⟨[fixtureHighProject], 8⟩
        (process_alerts deliverAll 90000000000 6 [fixtureUser]
          ⟨[fixtureHighProject], 8⟩ []) =
      process_alerts deliverAll 90000000000 6 [fixtureUser]
        ⟨[fixtureHighProject], 8⟩ [] :=
  claim_C6_alert_non_duplication deliverAll 90000000000 90000000001 6 [fixtureUser]
    ⟨[fixtureHighProject], 8⟩ [] (by decide) (fun _ _ _ => rfl) (by norm_num)

theorem process_alerts_single (d : String → String → String → Bool) (now cron : Nat)
    (st : Store) (hist : List AlertHistory) (u : User)
    (henabled : u.email_alerts = true ∨ u.sms_alerts = true) :
    process_alerts d now cron [u] st hist = alertUser d now cron st hist u := by
  have hb : (u.email_alerts || u.sms_alerts) = true := by
    rcases henabled with h | h <;> simp [h]
  unfold process_alerts
  dsimp only
  rw [List.filter_cons, if_pos hb]
  simp [List.filter_nil]

theorem alertUser_mem_cases (d : String → String → String → Bool) (now cron : Nat)
    (st : Store) (hist : List AlertHistory) (u : User) :
    ∀ r ∈ alertUser d now cron st hist u, r ∈ hist ∨
      (r ∈ emailReceipts u (toAlert now cron st hist u) ∧
        d "email" u.email (emailPayload u (toAlert now cron st hist u)) = true) ∨
      (r ∈ smsReceipts u (toAlert now cron st hist u) ∧
        d "sms" u.phone (_build_sms_body (toAlert now cron st hist u)) = true) := by
  intro r hr
  simp only [alertUser] at hr
  split_ifs at hr
  all_goals first
    | exact Or.inl hr
    | (rcases List.mem_append.1 hr with hr2 | hr2
       · first
         | exact Or.inl hr2
         | (rcases List.mem_append.1 hr2 with hr3 | hr3
            · exact Or.inl hr3
            · exact Or.inr (Or.inl ⟨hr3, by assumption⟩))
       · first
         | exact Or.inr (Or.inl ⟨hr2, by assumption⟩)
         | exact Or.inr (Or.inr ⟨hr2, by assumption⟩))

theorem alertUser_email_receipts (d : String → String → String → Bool) (now cron : Nat)
    (st : Store) (hist : List AlertHistory) (u : User)
    (he1 : u.email_alerts = true) (he2 : u.email ≠ "")
    (hdel : d "email" u.email (emailPayload u (toAlert now cron st hist u)) = true) :
    ∀ p ∈ toAlert now cron st hist u,
      ({ user_id := u.id, project_id := p.id, alert_type := "email" } : AlertHistory) ∈
        alertUser d now cron st hist u := by
  intro p hp
  have hem : u.email_alerts = true ∧ u.email ≠ "" := ⟨he1, he2⟩
  have hta : ¬(toAlert now cron st hist u).isEmpty := by
    rw [List.isEmpty_iff]
    intro h
    rw [h] at hp
    cases hp
  have hnew : ¬(newProjects now cron st u).isEmpty := by
    rw [List.isEmpty_iff]
    intro h
    rw [toAlert, h] at hp
    cases hp
  have hmem : ({ user_id := u.id, project_id := p.id, alert_type := "email" } :
      AlertHistory) ∈ hist ++ emailReceipts u (toAlert now cron st hist u) := by
    apply List.mem_append_right
    simp only [emailReceipts, List.mem_map]
    exact ⟨p, hp, rfl⟩
  simp only [alertUser]
  rw [if_neg hnew, if_neg hta, if_pos hem, hdel, if_pos rfl]
  split_ifs
  · exact List.mem_append_left _ hmem
  · exact hmem
  · exact hmem

theorem alertUser_sms_receipts (d : String → String → String → Bool) (now cron : Nat)
    (st : Store) (hist : List AlertHistory) (u : User)
    (hs1 : u.sms_alerts = true) (hs2 : u.phone ≠ "")
    (hdel : d "sms" u.phone (_build_sms_body (toAlert now cron st hist u)) = true) :
    ∀ p ∈ toAlert now cron st hist u,
      ({ user_id := u.id, project_id := p.id, alert_type := "sms" } : AlertHistory) ∈
        alertUser d now cron st hist u := by
  intro p hp
  have hsm : u.sms_alerts = true ∧ u.phone ≠ "" := ⟨hs1, hs2⟩
  have hta : ¬(toAlert now cron st hist u).isEmpty := by
    rw [List.isEmpty_iff]
    intro h
    rw [h] at hp
    cases hp
  have hnew : ¬(newProjects now cron st u).isEmpty := by
    rw [List.isEmpty_iff]
    intro h
    rw [toAlert, h] at hp
    cases hp
  simp only [alertUser]
  rw [if_neg hnew, if_neg hta, if_pos hsm, hdel, if_pos rfl]
  apply List.mem_append_right
  simp only [smsReceipts, List.mem_map]
  exact ⟨p, hp, rfl⟩

theorem alertUser_no_email_receipts (d : String → String → String → Bool)
    (now cron : Nat) (st : Store) (hist : List AlertHistory) (u : User)
    (hfail : d "email" u.email (emailPayload u (toAlert now cron st hist u)) = false) :
    ∀ r ∈ alertUser d now cron st hist u, r ∈ hist ∨ r.alert_type ≠ "email" := by
  intro r hr
  rcases alertUser_mem_cases d now cron st hist u r hr with h | ⟨_, hdel⟩ | ⟨hS, _⟩
  · exact Or.inl h
  · rw [hfail] at hdel
    cases hdel
  · right
    simp only [smsReceipts, List.mem_map] at hS
    obtain ⟨p, _, hp⟩ := hS
    rw [← hp]
    simp

theorem alertUser_no_sms_receipts (d : String → String → String → Bool)
    (now cron : Nat) (st : Store) (hist : List AlertHistory) (u : User)
    (hfail : d "sms" u.phone (_build_sms_body (toAlert now cron st hist u)) = false) :
    ∀ r ∈ alertUser d now cron st hist u, r ∈ hist ∨ r.alert_type ≠ "sms" := by
  intro r hr
  rcases alertUser_mem_cases d now cron st hist u r hr with h | ⟨hE, _⟩ | ⟨_, hdel⟩
  · exact Or.inl h
  · right
    simp only [emailReceipts, List.mem_map] at hE
    obtain ⟨p, _, hp⟩ := hE
    rw [← hp]
    simp
  · rw [hfail] at hdel
    cases hdel

/-- **C5** (amended).  Receipts are created only after a confirmed-successful
delivery, one per (subscriber, record, channel) in the surviving batch, and
a failed delivery on a channel creates no receipts for that channel; but a
record stays eligible for retry only while *no* channel holds a receipt for
it — a success on the other channel ends its eligibility on both channels,
because the already-alerted filter ignores the receipt's channel. -/
theorem claim_C5_receipts_follow_delivery (d : String → String → String → Bool)
    (now cron : Nat) (st : Store) (hist : List AlertHistory) (u : User)
    (henabled : u.email_alerts = true ∨ u.sms_alerts = true) :
    (d "email" u.email (emailPayload u (toAlert now cron st hist u)) = false →
      ∀ r ∈ process_alerts d now cron [u] st hist, r ∈ hist ∨ r.alert_type ≠ "email") ∧
    (d "sms" u.phone (_build_sms_body (toAlert now cron st hist u)) = false →
      ∀ r ∈ process_alerts d now cron [u] st hist, r ∈ hist ∨ r.alert_type ≠ "sms") ∧
    (u.email_alerts = true → u.email ≠ "" →
      d "email" u.email (emailPayload u (toAlert now cron st hist u)) = true →
      ∀ p ∈ toAlert now cron st hist u,
        ({ user_id := u.id, project_id := p.id, alert_type := "email" } : AlertHistory) ∈
          process_alerts d now cron [u] st hist) ∧
    (u.sms_alerts = true → u.phone ≠ "" →
      d "sms" u.phone (_build_sms_body (toAlert now cron st hist u)) = true →
      ∀ p ∈ toAlert now cron st hist u,
        ({ user_id := u.id, project_id := p.id, alert_type := "sms" } : AlertHistory) ∈
          process_alerts d now cron [u] st hist) ∧
    (∀ p ∈ newProjects now cron st u,
      (∀ r ∈ process_alerts d now cron [u] st hist,
        ¬(r.user_id = u.id ∧ r.project_id = p.id)) →
      p ∈ toAlert now cron st (process_alerts d now cron [u] st hist) u) := by
  rw [process_alerts_single d now cron st hist u henabled]
  refine ⟨?_, ?_, ?_, ?_, ?_⟩
  · exact fun hfail => alertUser_no_email_receipts d now cron st hist u hfail
  · exact fun hfail => alertUser_no_sms_receipts d now cron st hist u hfail
  · exact fun he1 he2 hdel => alertUser_email_receipts d now cron st hist u he1 he2 hdel
  · exact fun hs1 hs2 hdel => alertUser_sms_receipts d now cron st hist u hs1 hs2 hdel
  · intro p hp hno
    rw [toAlert, List.mem_filter]
    refine ⟨hp, ?_⟩
    have hnot : p.id ∉ alreadyIds (alertUser d now cron st hist u) u.id := by
      rw [mem_alreadyIds]
      rintro ⟨r, hr, hru, hrp⟩
      exact hno r hr ⟨hru, hrp⟩
    simpa using hnot

theorem claim_C5_amended_witness :
    (∀ r ∈ process_alerts deliverSmsOnly 90000000000 6 [fixtureUser]
        ⟨[fixtureHighProject], 8⟩ [],
      r ∈ ([] : List AlertHistory) ∨ r.alert_type ≠ "email") ∧
    (∀ p ∈ toAlert 90000000000 6 ⟨[fixtureHighProject], 8⟩ [] fixtureUser,
      ({ user_id := fixtureUser.id, project_id := p.id, alert_type := "sms" } :
          AlertHistory) ∈
        process_alerts deliverSmsOnly 90000000000 6 [fixtureUser]
          ⟨[fixtureHighProject], 8⟩ []) :=
  ⟨(claim_C5_receipts_follow_delivery deliverSmsOnly 90000000000 6
      ⟨[fixtureHighProject], 8⟩ [] fixtureUser (Or.inl rfl)).1 rfl,
   (claim_C5_receipts_follow_delivery deliverSmsOnly 90000000000 6
      ⟨[fixtureHighProject], 8⟩ [] fixtureUser (Or.inl rfl)).2.2.2.1 rfl
      (by decide) rfl⟩

/-- **C10.**  On a successful email delivery a receipt is written for every
record of the surviving batch — including those past the first 10, which are
the only ones the email body can show (the body is a function of the first
10 records and the batch size alone; the SMS body of the first 3 and the
size) — and any record with a receipt for the subscriber is excluded from
every later surviving batch, so records omitted from the message body are
never sent to that subscriber again. -/
theorem claim_C10_receipts_beyond_truncation (d : String → String → String → Bool)
    (now cron : Nat) (st : Store) (hist : List AlertHistory) (u : User)
    (henabled : u.email_alerts = true ∨ u.sms_alerts = true) :
    (∀ ps1 ps2 : List Project, ∀ nm : String, ps1.take 10 = ps2.take 10 →
      ps1.length = ps2.length → _build_email_html ps1 nm = _build_email_html ps2 nm) ∧
    (∀ ps1 ps2 : List Project, ps1.take 3 = ps2.take 3 → ps1.length = ps2.length →
      _build_sms_body ps1 = _build_sms_body ps2) ∧
    (u.email_alerts = true → u.email ≠ "" →
      d "email" u.email (emailPayload u (toAlert now cron st hist u)) = true →
      ∀ p ∈ (toAlert now cron st hist u).drop 10,
        ({ user_id := u.id, project_id := p.id, alert_type := "email" } : AlertHistory) ∈
          process_alerts d now cron [u] st hist) ∧
    (∀ (p : Project) (r : AlertHistory), r ∈ hist → r.user_id = u.id →
      r.project_id = p.id → p ∉ toAlert now cron st hist u) := by
  refine ⟨?_, ?_, ?_, ?_⟩
  · intro ps1 ps2 nm h10 hlen
    simp only [_build_email_html, h10, hlen]
  · intro ps1 ps2 h3 hlen
    simp only [_build_sms_body, h3, hlen]
  · intro he1 he2 hdel p hp
    rw [process_alerts_single d now cron st hist u henabled]
    exact alertUser_email_receipts d now cron st hist u he1 he2 hdel p
      (List.mem_of_mem_drop hp)
  · intro p r hr hru hrp hmem
    rw [toAlert, List.mem_filter] at hmem
    have h2 := hmem.2
    simp only [decide_not, Bool.not_eq_eq_eq_not, Bool.not_true,
      decide_eq_false_iff_not] at h2
    exact h2 (mem_alreadyIds.2 ⟨r, hr, hru, hrp⟩)

set_option maxHeartbeats 1000000 in
theorem claim_C10_witness :
    _build_email_html
        (fixtureManyStore.records ++ [{ fixtureHighProject with id := 99 }]) "n" =
      _build_email_html
        (fixtureManyStore.records ++ [{ fixtureHighProject with id := 99 }]) "n" ∧
    ({ user_id := 1, project_id := 10, alert_type := "email" } : AlertHistory) ∈
      process_alerts deliverAll 90000000000 6 [fixtureUser] fixtureManyStore [] := by
  constructor
  · have h := (claim_C10_receipts_beyond_truncation deliverAll 90000000000 6
      fixtureManyStore [] fixtureUser (Or.inl rfl)).1
    exact h _ _ "n" rfl rfl
  · have h := (claim_C10_receipts_beyond_truncation deliverAll 90000000000 6
      fixtureManyStore [] fixtureUser (Or.inl rfl)).2.2.1
    exact h rfl (by decide) rfl { fixtureHighProject with id := 10 } (by decide)

end SiteScan
